import Mathlib

/-!
Verification of the FinGPT TradingView→FinBERT→3Commas webhook service
(`src/app.py`) against its specification.

The Python program is shallowly embedded: JSON scalar values are `JVal`,
dynamic-typing and conversion failures (`TypeError`, `ValueError`,
`AttributeError`) are an explicit `Except PyErr`, Python floats are modelled
as rationals, and the external capabilities (the FinBERT classifier, the
HTTP client, the JSON parser of the response body, and Python's float
formatting used in f-strings) are parameters of the embedded functions.
-/

namespace FinGPT

/-- Scalar JSON values as delivered by Flask's `request.get_json` for the
fields this service reads. -/
inductive JVal where
  | str (s : String)
  | num (q : ℚ)
  | boolV (b : Bool)
  | null
deriving DecidableEq, Repr

/-- Python exceptions that the embedded code can raise, plus a marker for a
transport-level failure of `requests.post` (timeout / connection error). -/
inductive PyErr where
  | typeError
  | valueError
  | attributeError
  | transportError
deriving DecidableEq, Repr

/-- Python truthiness (`bool(v)`) restricted to the modelled scalars. -/
def pyTruthy : JVal → Bool
  | .str s => s ≠ ""
  | .num q => q ≠ 0
  | .boolV b => b
  | .null => false

/-- Python `v == s` for a string literal `s`: values of a different runtime
type compare unequal without raising. -/
def pyEqStr : JVal → String → Bool
  | .str s, t => s = t
  | _, _ => false

/-- The whitespace characters stripped by Python's `str.strip()` (ASCII
subset, which covers every input this development uses). -/
def pyWs (c : Char) : Bool :=
  c == ' ' || c == '\t' || c == '\n' || c == '\r' || c == '\x0b' || c == '\x0c'

/-- Python `s.strip()`: remove leading and trailing whitespace. -/
def pyStrip (s : String) : String :=
  String.mk (((s.data.dropWhile pyWs).reverse.dropWhile pyWs).reverse)

/-- Python `s[:n]` on a string: the first `n` characters. -/
def pySlice (s : String) (n : Nat) : String :=
  String.mk (s.data.take n)

/-- Python `len(s)`. -/
def pyLen (s : String) : Nat :=
  s.data.length

/-- Python `s.lower()`. -/
def strLower (s : String) : String :=
  String.mk (s.data.map Char.toLower)

/-- Python `s.upper()`. -/
def strUpper (s : String) : String :=
  String.mk (s.data.map Char.toUpper)

/-- Python `needle in hay` on strings: substring containment. -/
def strContainsSub (hay needle : String) : Bool :=
  (List.range (hay.data.length + 1)).any fun i => needle.data.isPrefixOf (hay.data.drop i)

/-- All characters are decimal digits. -/
def allDigits (l : List Char) : Bool :=
  l.all Char.isDigit

/-- Numeric value of a digit string. -/
def natOfDigits (l : List Char) : Nat :=
  l.foldl (fun a c => 10 * a + (c.toNat - 48)) 0

/-- Unsigned part of Python's `float(str)` grammar restricted to plain
decimal literals: `digits`, `digits.digits`, `.digits`, `digits.`. The
value of `intPart.fracPart` is the combined digit string over
`10 ^ length fracPart`. -/
def pyFloatMag (l : List Char) : Option ℚ :=
  let intPart := l.takeWhile (fun c => c ≠ '.')
  match l.dropWhile (fun c => c ≠ '.') with
  | [] =>
      if intPart ≠ [] ∧ allDigits intPart then some (mkRat (natOfDigits intPart) 1)
      else none
  | '.' :: frac =>
      if allDigits intPart ∧ allDigits frac ∧ (intPart ≠ [] ∨ frac ≠ []) then
        some (mkRat (natOfDigits (intPart ++ frac)) (10 ^ frac.length))
      else none
  | _ => none

/-- Python `float(s)` on a string: strip whitespace, optional sign, decimal
literal; anything else raises `ValueError` (modelled as `none`). -/
def pyFloatStr (s : String) : Option ℚ :=
  match (pyStrip s).data with
  | '+' :: rest => pyFloatMag rest
  | '-' :: rest => (pyFloatMag rest).map Neg.neg
  | l => pyFloatMag l

/-- Python `int(s)` on a string: strip whitespace, optional sign, digits. -/
def pyIntStr (s : String) : Option Int :=
  match (pyStrip s).data with
  | '+' :: rest =>
      if rest ≠ [] ∧ allDigits rest then some (natOfDigits rest) else none
  | '-' :: rest =>
      if rest ≠ [] ∧ allDigits rest then some (-(natOfDigits rest : Int)) else none
  | l => if l ≠ [] ∧ allDigits l then some (natOfDigits l) else none

/-- Python `float(v)` on a JSON scalar: numbers pass through, strings go
through the literal grammar (`ValueError` on failure), booleans become 0/1,
`None` raises `TypeError`. -/
def pyFloat : JVal → Except PyErr ℚ
  | .num q => .ok q
  | .str s =>
      match pyFloatStr s with
      | some q => .ok q
      | none => .error .valueError
  | .boolV b => .ok (if b then 1 else 0)
  | .null => .error .typeError

/-- Python `v.upper()`: only strings have the method. -/
def pyUpperJ : JVal → Except PyErr String
  | .str s => .ok (strUpper s)
  | _ => .error .attributeError

/-- Python `v.lower()`: only strings have the method. -/
def pyLowerJ : JVal → Except PyErr String
  | .str s => .ok (strLower s)
  | _ => .error .attributeError

/-- `sentiment_score` (src/app.py lines 22-35) with the FinBERT pipeline
abstracted as `clf : String → String × ℚ` returning the label and the
confidence magnitude of the top class. Empty or whitespace-only text
returns 0 without invoking the classifier; otherwise the text is truncated
to 500 characters, classified, and the magnitude is signed by the label. -/
def sentiment_score (clf : String → String × ℚ) (text : String) : ℚ :=
  if text = "" ∨ pyStrip text = "" then 0
  else
    let res := clf (pySlice text 500)
    let label := strLower res.1
    let score := res.2
    if strContainsSub label "positive" then score
    else if strContainsSub label "negative" then -score
    else 0

/-- `sentiment_score` as called from the handler on the raw JSON value of
`note`: a falsy value short-circuits to 0 at `if not text`, a truthy
non-string raises `AttributeError` at `text.strip()`. -/
def sentimentScoreJ (clf : String → String × ℚ) : JVal → Except PyErr ℚ
  | .str s => .ok (sentiment_score clf s)
  | v => if pyTruthy v then .error .attributeError else .ok 0

/-- Process-wide configuration read from the environment at startup
(src/app.py lines 10-14). -/
structure Config where
  tvToken : String
  apiKey : String
  apiSecret : String
  botId : String
  dryRun : Bool
deriving DecidableEq, Repr

/-- The JSON body POSTed to `/ver1/bots/start_deal` (src/app.py lines
62-66). -/
structure DealReq where
  bot_id : Int
  pair : String
  message : String
deriving DecidableEq, Repr

/-- An HTTP response from the trading API: status code and raw text body. -/
structure HttpResp where
  status : Nat
  text : String
deriving DecidableEq, Repr

/-- The value `start_deal` returns: the parsed JSON body (of abstract parsed
type `J`), the `{"status_code": ..., "text": ...}` fallback built when the
body fails to parse, or the `{"status": "dry_run"}` marker. -/
inductive DealResponse (J : Type) where
  | parsed (j : J)
  | fallback (status_code : Nat) (text : String)
  | dryRun
deriving DecidableEq, Repr

/-- `start_deal` (src/app.py lines 50-78). `net` is the `requests.post`
capability (`none` = transport failure raising an exception) and `jparse`
the response-body JSON parser (`r.json()`, `none` = parse failure). The
payload is built — including `int(bot_id)`, which can raise — before the
dry-run check, exactly as in the source. -/
def start_deal {J : Type} (cfg : Config) (net : DealReq → Option HttpResp)
    (jparse : String → Option J) (bot_id pair message : String) :
    Except PyErr (DealResponse J) :=
  match pyIntStr bot_id with
  | none => .error .valueError
  | some n =>
    let payload : DealReq := ⟨n, pair, pySlice message 240⟩
    if cfg.dryRun then .ok .dryRun
    else
      match net payload with
      | none => .error .transportError
      | some r =>
        .ok (match jparse r.text with
             | some j => .parsed j
             | none => .fallback r.status r.text)

/-- Gate 1, directional alignment (src/app.py lines 104-113): the
`should_trade` flag and the `reason` string. The source thresholds `0.2`
and `-0.2` are written `mkRat 1 5` and `-(mkRat 1 5)`. `fmt2` is Python's
`f"{s:.2f}"` float formatting. -/
def gate1 (fmt2 : ℚ → String) (side : String) (s : ℚ) : Bool × String :=
  if side = "buy" ∧ s > mkRat 1 5 then
    (true, "BUY allowed (sentiment " ++ fmt2 s ++ ")")
  else if side = "sell" ∧ s < -(mkRat 1 5) then
    (true, "SELL allowed (sentiment " ++ fmt2 s ++ ")")
  else
    (false, "Blocked by sentiment " ++ fmt2 s)

/-- Gate 2, confidence override (src/app.py lines 116-118): a truthy
(nonzero) confidence below 60 forces `should_trade` to false and appends
the low-confidence note. `fmtG` is Python's default `f"{x}"` float
formatting. -/
def gate2 (fmtG : ℚ → String) (confidence : ℚ) (d : Bool × String) : Bool × String :=
  if confidence ≠ 0 ∧ confidence < 60 then
    (false, d.2 ++ " | low TV confidence " ++ fmtG confidence ++ "%")
  else d

/-- The inbound JSON payload as a partial record of its scalar fields:
`none` models an absent key (`dict.get` default applies). -/
structure Payload where
  token : Option JVal
  symbol : Option JVal
  exchange : Option JVal
  side : Option JVal
  note : Option JVal
  confidence : Option JVal
deriving DecidableEq, Repr

/-- `pair = f"{exchange}:{symbol}" if ":" not in symbol else symbol`
(src/app.py line 98): `":" not in symbol` raises `TypeError` when `symbol`
is `None` (absent key) or not a string. -/
def derivePair (exchange : String) (symbol : Option JVal) : Except PyErr String :=
  match symbol with
  | some (.str s) =>
      .ok (if strContainsSub s ":" then s else exchange ++ ":" ++ s)
  | _ => .error .typeError

/-- The responses the webhook handler can produce, by source line: 401
`{ok:false, error:"bad token"}` (line 90), 200 `{ok:true, action:"skipped",
reason}` (line 123), 500 `{ok:false, error:"3Commas API not configured
(API key/secret/bot id)"}` (line 127), and 200 `{ok:true,
action:"deal_started", threecommas}` (line 130). -/
inductive WRes (J : Type) where
  | badToken
  | skipped (reason : String)
  | notConfigured
  | dealStarted (tc : DealResponse J)
deriving DecidableEq, Repr

/-- HTTP status of each handler response (Flask's default 200 when no
status is given). -/
def wStatus {J : Type} : WRes J → Nat
  | .badToken => 401
  | .skipped _ => 200
  | .notConfigured => 500
  | .dealStarted _ => 200

/-- The `ok` field of each handler response body. -/
def wOk {J : Type} : WRes J → Bool
  | .badToken => false
  | .skipped _ => true
  | .notConfigured => false
  | .dealStarted _ => true

/-- The `error` field of each handler response body, when present. -/
def wErrMsg {J : Type} : WRes J → Option String
  | .badToken => some "bad token"
  | .notConfigured => some "3Commas API not configured (API key/secret/bot id)"
  | _ => none

/-- The `action` field of each handler response body, when present. -/
def wAction {J : Type} : WRes J → Option String
  | .skipped _ => some "skipped"
  | .dealStarted _ => some "deal_started"
  | _ => none

/-- The `threecommas` field of each handler response body, when present. -/
def wThreecommas {J : Type} : WRes J → Option (DealResponse J)
  | .dealStarted tc => some tc
  | _ => none

/-- Exception-propagating sequencing of the embedded Python statements. -/
def exBind {α β : Type} (e : Except PyErr α) (f : α → Except PyErr β) : Except PyErr β :=
  match e with
  | .error err => .error err
  | .ok a => f a

@[simp] theorem exBind_ok {α β : Type} (a : α) (f : α → Except PyErr β) :
    exBind (.ok a) f = f a := rfl

@[simp] theorem exBind_error {α β : Type} (e : PyErr) (f : α → Except PyErr β) :
    exBind (.error e) f = .error e := rfl

/-- The body of the `webhook` handler after the token check (src/app.py
lines 92-130), in source statement order: extract `exchange.upper()`,
`side.lower()`, `float(confidence)`, derive the pair, score the note, apply
the two gates, then branch on `should_trade` and on the presence of the
3Commas credentials. -/
def webhookPost {J : Type} (cfg : Config) (clf : String → String × ℚ)
    (fmt2 fmtG : ℚ → String) (net : DealReq → Option HttpResp)
    (jparse : String → Option J) (p : Payload) : Except PyErr (WRes J) :=
  exBind (pyUpperJ (p.exchange.getD (.str "BINANCE"))) fun exchange =>
  exBind (pyLowerJ (p.side.getD (.str ""))) fun side =>
  exBind (pyFloat (p.confidence.getD (.num 0))) fun confidence =>
  exBind (derivePair exchange p.symbol) fun pair =>
  exBind (sentimentScoreJ clf (p.note.getD (.str ""))) fun s =>
  let d := gate2 fmtG confidence (gate1 fmt2 side s)
  if d.1 = false then .ok (.skipped d.2)
  else if ¬(cfg.apiKey ≠ "" ∧ cfg.apiSecret ≠ "" ∧ cfg.botId ≠ "") then
    .ok .notConfigured
  else
    exBind (start_deal cfg net jparse cfg.botId pair
      ("TV+FinBERT: " ++ side ++ " (" ++ d.2 ++ ")")) fun resp =>
    .ok (.dealStarted resp)

/-- The `webhook` handler (src/app.py lines 80-130) from the parsed JSON
object onwards: shared-token authentication (lines 88-90), then the rest of
the pipeline. An `.error` result models an exception escaping the handler
(Flask converts it to a generic 500). -/
def webhook {J : Type} (cfg : Config) (clf : String → String × ℚ)
    (fmt2 fmtG : ℚ → String) (net : DealReq → Option HttpResp)
    (jparse : String → Option J) (p : Payload) : Except PyErr (WRes J) :=
  if cfg.tvToken ≠ "" ∧ pyEqStr (p.token.getD (.str "")) cfg.tvToken = false then
    .ok .badToken
  else
    webhookPost cfg clf fmt2 fmtG net jparse p

/-! ## Helper lemmas -/

/-- Gate 1 sets `should_trade` exactly on aligned side/sentiment. -/
theorem gate1_fst_iff (fmt2 : ℚ → String) (side : String) (s : ℚ) :
    (gate1 fmt2 side s).1 = true ↔
      (side = "buy" ∧ s > mkRat 1 5) ∨ (side = "sell" ∧ s < -(mkRat 1 5)) := by
  unfold gate1
  split
  next h => exact iff_of_true rfl (Or.inl h)
  next h =>
    split
    next h2 => exact iff_of_true rfl (Or.inr h2)
    next h2 => exact iff_of_false (by simp) (by tauto)

/-- When Gate 1 blocks, the reason is the blocked-by-sentiment message. -/
theorem gate1_blocked_reason (fmt2 : ℚ → String) (side : String) (s : ℚ)
    (h : (gate1 fmt2 side s).1 = false) :
    (gate1 fmt2 side s).2 = "Blocked by sentiment " ++ fmt2 s := by
  revert h
  unfold gate1
  split
  · intro h
    exact absurd h (by simp)
  · split
    · intro h
      exact absurd h (by simp)
    · intro _
      rfl

/-- Gate 2 never raises `should_trade` from false to true. -/
theorem gate2_fst_le (fmtG : ℚ → String) (c : ℚ) (d : Bool × String)
    (h : (gate2 fmtG c d).1 = true) : d.1 = true := by
  unfold gate2 at h
  split at h
  · simp at h
  · exact h

/-! ## Claims -/

/-- Claim C3: the directional-alignment gate marks a request trade-eligible
iff side is "buy" with sentiment strictly above 0.2 or side is "sell" with
sentiment strictly below -0.2; in every other case — boundaries included,
and any side other than "buy"/"sell" — it is not eligible and the reason
records the blocking sentiment value. -/
theorem claim_C3_gate1_alignment (fmt2 : ℚ → String) (side : String) (s : ℚ) :
    ((gate1 fmt2 side s).1 = true ↔
      (side = "buy" ∧ s > mkRat 1 5) ∨ (side = "sell" ∧ s < -(mkRat 1 5)))
  ∧ ((gate1 fmt2 side s).1 = false →
      (gate1 fmt2 side s).2 = "Blocked by sentiment " ++ fmt2 s) :=
  ⟨gate1_fst_iff fmt2 side s, gate1_blocked_reason fmt2 side s⟩

/-- Witness for C3: at the exact boundary (side "buy", sentiment 0.2) the
request is not eligible and the reason records the blocking value. -/
theorem claim_C3_witness :
    (gate1 (fun _ => "0.20") "buy" (mkRat 1 5)).2
      = "Blocked by sentiment " ++ (fun _ : ℚ => "0.20") (mkRat 1 5) :=
  (claim_C3_gate1_alignment (fun _ => "0.20") "buy" (mkRat 1 5)).2 (by decide)

/-- Claim C2: a nonzero confidence strictly below 60 forces the decision to
not-eligible and appends the low-confidence note to the reason; a
confidence of exactly 0 leaves the Gate 1 outcome unchanged; a confidence
of 60 or more leaves the Gate 1 outcome unchanged as well. -/
theorem claim_C2_confidence_gate (fmt2 fmtG : ℚ → String) (side : String) (s c : ℚ) :
    (c ≠ 0 ∧ c < 60 →
      gate2 fmtG c (gate1 fmt2 side s)
        = (false, (gate1 fmt2 side s).2 ++ " | low TV confidence " ++ fmtG c ++ "%"))
  ∧ (c = 0 → gate2 fmtG c (gate1 fmt2 side s) = gate1 fmt2 side s)
  ∧ (60 ≤ c → gate2 fmtG c (gate1 fmt2 side s) = gate1 fmt2 side s) := by
  refine ⟨fun h => ?_, fun h => ?_, fun h => ?_⟩
  · unfold gate2
    rw [if_pos h]
  · unfold gate2
    rw [if_neg fun hc => hc.1 h]
  · unfold gate2
    rw [if_neg fun hc => absurd hc.2 (not_lt.mpr h)]

/-- Witness for C2: side "buy", sentiment 0.9 (eligible by Gate 1),
confidence 59 — the decision is forced to not-eligible with the
low-confidence note appended. -/
theorem claim_C2_witness :
    gate2 (fun _ => "59.0") 59 (gate1 (fun _ => "0.90") "buy" (mkRat 9 10))
      = (false, (gate1 (fun _ => "0.90") "buy" (mkRat 9 10)).2
          ++ " | low TV confidence " ++ (fun _ : ℚ => "59.0") 59 ++ "%") :=
  (claim_C2_confidence_gate (fun _ => "0.90") (fun _ => "59.0") "buy" (mkRat 9 10) 59).1
    (by decide)

/-- Claim C9: the final decision is trade-eligible only if Gate 1 passed —
the confidence gate can revoke eligibility but never grant it, so no
confidence value turns a sentiment-blocked alert into an eligible one. -/
theorem claim_C9_gate2_only_revokes (fmt2 fmtG : ℚ → String) (side : String) (s c : ℚ)
    (h : (gate2 fmtG c (gate1 fmt2 side s)).1 = true) :
    (side = "buy" ∧ s > mkRat 1 5) ∨ (side = "sell" ∧ s < -(mkRat 1 5)) :=
  (gate1_fst_iff fmt2 side s).mp (gate2_fst_le fmtG c _ h)

/-- Witness for C9: side "buy", sentiment 0.9, confidence 75 — the final
decision is eligible, and indeed Gate 1's buy condition holds. -/
theorem claim_C9_witness :
    ("buy" = "buy" ∧ mkRat 9 10 > mkRat 1 5)
      ∨ ("buy" = "sell" ∧ mkRat 9 10 < -(mkRat 1 5)) :=
  claim_C9_gate2_only_revokes (fun _ => "") (fun _ => "") "buy" (mkRat 9 10) 75 (by decide)

/-- `strip` of a string is empty exactly when every character is
whitespace. -/
theorem pyStrip_eq_empty_iff (s : String) : pyStrip s = "" ↔ ∀ c ∈ s.data, pyWs c := by
  constructor
  · intro h c hc
    have hl : ((s.data.dropWhile pyWs).reverse.dropWhile pyWs).reverse = [] := by
      simpa [pyStrip] using congrArg String.data h
    rw [List.reverse_eq_nil_iff] at hl
    have h3 : ∀ x ∈ (s.data.dropWhile pyWs).reverse, pyWs x :=
      List.dropWhile_eq_nil_iff.mp hl
    have h4 : ∀ x ∈ s.data.dropWhile pyWs, pyWs x := fun x hx =>
      h3 x (List.mem_reverse.mpr hx)
    rw [← List.takeWhile_append_dropWhile (p := pyWs) (l := s.data)] at hc
    rcases List.mem_append.mp hc with h5 | h5
    · exact List.mem_takeWhile_imp h5
    · exact h4 c h5
  · intro h
    have h1 : s.data.dropWhile pyWs = [] := List.dropWhile_eq_nil_iff.mpr h
    simp [pyStrip, h1]

/-- Claim C5 (amended): if the classifier's confidence magnitude lies in
[0, 1], then `sentiment_score` returns a value in [-1, 1]; and on any text
that is not empty or whitespace-only, the value is the magnitude of the
classified (truncated) text signed by the sign convention — `+magnitude`
when the lower-cased label contains "positive", `-magnitude` when it
contains "negative", 0 otherwise. -/
theorem claim_C5_sentiment_range_sign (clf : String → String × ℚ) (text : String)
    (hlo : ∀ t, 0 ≤ (clf t).2) (hhi : ∀ t, (clf t).2 ≤ 1) :
    (-1 ≤ sentiment_score clf text ∧ sentiment_score clf text ≤ 1)
  ∧ (¬(text = "" ∨ pyStrip text = "") →
      sentiment_score clf text =
        (if strContainsSub (strLower (clf (pySlice text 500)).1) "positive" then
          (clf (pySlice text 500)).2
         else if strContainsSub (strLower (clf (pySlice text 500)).1) "negative" then
          -(clf (pySlice text 500)).2
         else 0)) := by
  constructor
  · unfold sentiment_score
    split
    · constructor <;> norm_num
    · dsimp only
      split
      · exact ⟨le_trans (by norm_num) (hlo _), hhi _⟩
      · split
        · refine ⟨neg_le_neg (hhi _), ?_⟩
          exact le_trans (neg_nonpos.mpr (hlo _)) zero_le_one
        · constructor <;> norm_num
  · intro h
    unfold sentiment_score
    rw [if_neg h]

/-- Witness for C5: a classifier with label "positive" and magnitude 1/2 on
the text "good" yields a score within bounds. -/
theorem claim_C5_witness :
    -1 ≤ sentiment_score (fun _ => ("positive", mkRat 1 2)) "good"
  ∧ sentiment_score (fun _ => ("positive", mkRat 1 2)) "good" ≤ 1 :=
  (claim_C5_sentiment_range_sign (fun _ => ("positive", mkRat 1 2)) "good"
    (fun _ => (by decide : (0 : ℚ) ≤ mkRat 1 2))
    (fun _ => (by decide : mkRat 1 2 ≤ 1))).1

/-- A classifier returning a non-negative magnitude larger than 1: allowed
by the claim's premise, but it drives `sentiment_score` out of [-1, 1]. -/
def clfBig : String → String × ℚ := fun _ => ("positive", 2)

/-- Counterexample to C5 as stated: with only non-negativity of the
magnitude assumed, the classifier `clfBig` (label "positive", magnitude 2)
makes `sentiment_score` return 2 on the text "x", which violates the
claimed [-1.0, 1.0] range. -/
theorem claim_C5_counterexample :
    (0 : ℚ) ≤ (clfBig "x").2
  ∧ sentiment_score clfBig "x" = 2
  ∧ ¬ sentiment_score clfBig "x" ≤ 1 := by decide

/-- Claim C6 (amended): for any text longer than 500 characters whose first
500 characters are not all whitespace, the score equals the score of the
first 500 characters. (The unamended claim fails when the first 500
characters are all whitespace but a later character is not: the
whole-string blankness check diverges from the truncated one.) -/
theorem claim_C6_truncation_amended (clf : String → String × ℚ) (t : String)
    (_hlen : 500 < pyLen t) (hns : pyStrip (pySlice t 500) ≠ "") :
    sentiment_score clf t = sentiment_score clf (pySlice t 500) := by
  have hslice_ne : pySlice t 500 ≠ "" := by
    intro h
    rw [h] at hns
    exact hns rfl
  have hstrip_t : pyStrip t ≠ "" := by
    intro h
    apply hns
    rw [pyStrip_eq_empty_iff]
    intro c hc
    have hc' : c ∈ t.data.take 500 := by simpa [pySlice] using hc
    exact (pyStrip_eq_empty_iff t).mp h c (List.mem_of_mem_take hc')
  have ht_ne : t ≠ "" := by
    intro h
    rw [h] at hstrip_t
    exact hstrip_t rfl
  have hno1 : ¬(t = "" ∨ pyStrip t = "") := by
    rintro (h | h)
    exacts [ht_ne h, hstrip_t h]
  have hno2 : ¬(pySlice t 500 = "" ∨ pyStrip (pySlice t 500) = "") := by
    rintro (h | h)
    exacts [hslice_ne h, hns h]
  have hidem : pySlice (pySlice t 500) 500 = pySlice t 500 := by
    show String.mk ((t.data.take 500).take 500) = String.mk (t.data.take 500)
    rw [List.take_of_length_le (by rw [List.length_take]; exact Nat.min_le_left _ _)]
  unfold sentiment_score
  rw [if_neg hno1, if_neg hno2, hidem]

set_option maxRecDepth 10000 in
/-- Witness for C6 (amended): 501 copies of 'a' score the same as their
first 500 characters. -/
theorem claim_C6_witness :
    sentiment_score (fun _ => ("neutral", 0)) (String.mk (List.replicate 501 'a'))
      = sentiment_score (fun _ => ("neutral", 0))
          (pySlice (String.mk (List.replicate 501 'a')) 500) :=
  claim_C6_truncation_amended (fun _ => ("neutral", 0))
    (String.mk (List.replicate 501 'a')) (by decide) (by decide)

/-- A classifier that labels everything "positive" with magnitude 1/2, used
to separate a long text from its 500-character prefix. -/
def clfPos : String → String × ℚ := fun _ => ("positive", mkRat 1 2)

/-- A text of 500 spaces followed by one letter: longer than 500
characters, not whitespace-only, but its first 500 characters are. -/
def wsText : String := String.mk (List.replicate 500 ' ' ++ ['a'])

set_option maxRecDepth 10000 in
/-- Counterexample to C6 as stated: `wsText` is longer than 500 characters,
yet its score (the classifier runs on the 500-space truncation) differs
from the score of its first 500 characters (the whitespace-only
early-return yields 0 without classifying): characters past position 500
do affect the result. -/
theorem claim_C6_counterexample :
    500 < pyLen wsText
  ∧ sentiment_score clfPos wsText = mkRat 1 2
  ∧ sentiment_score clfPos (pySlice wsText 500) = 0
  ∧ sentiment_score clfPos wsText ≠ sentiment_score clfPos (pySlice wsText 500) := by
  decide

/-- The post-authentication pipeline never produces the bad-token
response. -/
theorem webhookPost_ne_badToken {J : Type} (cfg : Config) (clf : String → String × ℚ)
    (fmt2 fmtG : ℚ → String) (net : DealReq → Option HttpResp)
    (jparse : String → Option J) (p : Payload) :
    webhookPost cfg clf fmt2 fmtG net jparse p ≠ .ok .badToken := by
  unfold webhookPost
  cases h1 : pyUpperJ (p.exchange.getD (.str "BINANCE")) <;> simp
  cases h2 : pyLowerJ (p.side.getD (.str "")) <;> simp
  cases h3 : pyFloat (p.confidence.getD (.num 0)) <;> simp
  cases h4 : derivePair _ p.symbol <;> simp
  cases h5 : sentimentScoreJ clf (p.note.getD (.str "")) <;> simp
  split
  · simp
  · split
    · simp
    · cases h6 : start_deal (J := J) cfg net jparse cfg.botId _ _ <;> simp

/-- A deal-started response from the pipeline carries exactly the value
some `start_deal` call returned. -/
theorem webhookPost_dealStarted {J : Type} (cfg : Config) (clf : String → String × ℚ)
    (fmt2 fmtG : ℚ → String) (net : DealReq → Option HttpResp)
    (jparse : String → Option J) (p : Payload) (w : DealResponse J)
    (hw : webhookPost cfg clf fmt2 fmtG net jparse p = .ok (.dealStarted w)) :
    ∃ pr ms, start_deal cfg net jparse cfg.botId pr ms = .ok w := by
  revert hw
  unfold webhookPost
  cases h1 : pyUpperJ (p.exchange.getD (.str "BINANCE")) <;> simp
  cases h2 : pyLowerJ (p.side.getD (.str "")) <;> simp
  cases h3 : pyFloat (p.confidence.getD (.num 0)) <;> simp
  cases h4 : derivePair _ p.symbol <;> simp
  cases h5 : sentimentScoreJ clf (p.note.getD (.str "")) <;> simp
  split
  · simp
  · split
    · simp
    · cases h6 : start_deal (J := J) cfg net jparse cfg.botId _ _ <;> simp
      intro hw
      exact ⟨_, _, by rw [h6, hw]⟩

/-- Claim C4: with a non-empty configured token, a payload whose `token`
field does not equal it is answered with the 401 bad-token response
`{ok:false, error:"bad token"}`; with an empty configured token,
authentication is skipped — no payload is ever answered with the bad-token
response. -/
theorem claim_C4_token_auth {J : Type} (cfg : Config) (clf : String → String × ℚ)
    (fmt2 fmtG : ℚ → String) (net : DealReq → Option HttpResp)
    (jparse : String → Option J) (p : Payload) :
    (cfg.tvToken ≠ "" → pyEqStr (p.token.getD (.str "")) cfg.tvToken = false →
      webhook cfg clf fmt2 fmtG net jparse p = .ok .badToken
      ∧ wStatus (WRes.badToken : WRes J) = 401
      ∧ wOk (WRes.badToken : WRes J) = false
      ∧ wErrMsg (WRes.badToken : WRes J) = some "bad token")
  ∧ (cfg.tvToken = "" →
      webhook cfg clf fmt2 fmtG net jparse p ≠ .ok .badToken) := by
  constructor
  · intro h1 h2
    refine ⟨?_, rfl, rfl, rfl⟩
    unfold webhook
    rw [if_pos ⟨h1, h2⟩]
  · intro h
    unfold webhook
    rw [if_neg (fun hc => hc.1 h)]
    exact webhookPost_ne_badToken cfg clf fmt2 fmtG net jparse p

/-- Witness for C4: configured token "secret123" and request token "" give
the 401 bad-token response. -/
theorem claim_C4_witness :
    webhook ⟨"secret123", "", "", "", false⟩ (fun _ => ("", 0)) (fun _ => "")
        (fun _ => "") (fun _ => none) (fun _ => (none : Option Unit))
        ⟨some (.str ""), none, none, none, none, none⟩ = .ok .badToken
    ∧ wStatus (WRes.badToken : WRes Unit) = 401
    ∧ wOk (WRes.badToken : WRes Unit) = false
    ∧ wErrMsg (WRes.badToken : WRes Unit) = some "bad token" :=
  (claim_C4_token_auth ⟨"secret123", "", "", "", false⟩ (fun _ => ("", 0)) (fun _ => "")
    (fun _ => "") (fun _ => none) (fun _ => (none : Option Unit))
    ⟨some (.str ""), none, none, none, none, none⟩).1 (by decide) rfl

/-- Claim C7: with the dry-run flag set and a bot id that parses as an
integer, `start_deal` returns the dry-run marker for every `net` — the
result is a constant independent of the network capability, so no network
call is performed. -/
theorem claim_C7_dry_run {J : Type} (cfg : Config) (net : DealReq → Option HttpResp)
    (jparse : String → Option J) (bot_id pair message : String) (n : Int)
    (hb : pyIntStr bot_id = some n) (hd : cfg.dryRun = true) :
    start_deal cfg net jparse bot_id pair message = .ok .dryRun := by
  unfold start_deal
  rw [hb]
  simp [hd]

/-- Witness for C7: a dry-run configuration with bot id "7" returns the
marker even under a network capability that always fails. -/
theorem claim_C7_witness :
    start_deal ⟨"", "", "", "7", true⟩ (fun _ => none) (fun _ => (none : Option Unit))
      "7" "BINANCE:BTCUSDT" "msg" = .ok .dryRun :=
  claim_C7_dry_run ⟨"", "", "", "7", true⟩ (fun _ => none) (fun _ => (none : Option Unit))
    "7" "BINANCE:BTCUSDT" "msg" 7 (by decide) rfl

/-- Claim C8: in live mode, once the trading API has answered, `start_deal`
returns the parsed JSON body, or the raw status/text fallback when the body
fails to parse; it returns `.ok` for every response status (never raises
for non-2xx); and whenever the handler returns a deal-started response, it
is the 200 `{ok:true, action:"deal_started"}` envelope carrying verbatim
the value a `start_deal` call returned. -/
theorem claim_C8_response_forwarding {J : Type} (cfg : Config)
    (net : DealReq → Option HttpResp) (jparse : String → Option J)
    (bot_id pr msg : String) (n : Int) (resp : HttpResp)
    (hb : pyIntStr bot_id = some n) (hd : cfg.dryRun = false)
    (hn : net ⟨n, pr, pySlice msg 240⟩ = some resp) :
    (jparse resp.text = none →
      start_deal cfg net jparse bot_id pr msg = .ok (.fallback resp.status resp.text))
  ∧ (∀ j, jparse resp.text = some j →
      start_deal cfg net jparse bot_id pr msg = .ok (.parsed j))
  ∧ (∃ r, start_deal cfg net jparse bot_id pr msg = .ok r)
  ∧ (∀ (clf : String → String × ℚ) (fmt2 fmtG : ℚ → String) (p : Payload)
      (w : DealResponse J),
      webhook cfg clf fmt2 fmtG net jparse p = .ok (.dealStarted w) →
        wStatus (WRes.dealStarted w) = 200 ∧ wOk (WRes.dealStarted w) = true
        ∧ wAction (WRes.dealStarted w) = some "deal_started"
        ∧ ∃ pr2 ms2, start_deal cfg net jparse cfg.botId pr2 ms2 = .ok w) := by
  refine ⟨fun hj => ?_, fun j hj => ?_, ?_, fun clf fmt2 fmtG p w hw => ?_⟩
  · unfold start_deal
    rw [hb]
    simp [hd, hn, hj]
  · unfold start_deal
    rw [hb]
    simp [hd, hn, hj]
  · cases hj : jparse resp.text with
    | none =>
        exact ⟨.fallback resp.status resp.text,
          by unfold start_deal; rw [hb]; simp [hd, hn, hj]⟩
    | some j =>
        exact ⟨.parsed j, by unfold start_deal; rw [hb]; simp [hd, hn, hj]⟩
  · refine ⟨rfl, rfl, rfl, ?_⟩
    revert hw
    unfold webhook
    split
    · simp
    · exact webhookPost_dealStarted cfg clf fmt2 fmtG net jparse p w

/-- Witness for C8: a live configuration whose trading API answers 500 with
an unparsable body "oops" — `start_deal` returns the raw status/text
fallback. -/
theorem claim_C8_witness :
    start_deal ⟨"", "k", "s", "7", false⟩ (fun _ => some ⟨500, "oops"⟩)
      (fun _ => (none : Option Unit)) "7" "P" "m" = .ok (.fallback 500 "oops") :=
  (claim_C8_response_forwarding ⟨"", "k", "s", "7", false⟩ (fun _ => some ⟨500, "oops"⟩)
    (fun _ => (none : Option Unit)) "7" "P" "m" 7 ⟨500, "oops"⟩
    (by decide) rfl rfl).1 rfl

/-- Claim C1 evidence: an authenticated payload that lacks `symbol` makes
the handler raise an uncaught `TypeError` at the pair derivation
(`":" not in None`), instead of returning any 4xx validation response. -/
theorem claim_C1_missing_symbol_raises :
    webhook ⟨"secret123", "k", "s", "77", false⟩ (fun _ => ("positive", mkRat 9 10))
      (fun _ => "") (fun _ => "") (fun _ => none) (fun _ => (none : Option Unit))
      ⟨some (.str "secret123"), none, none, some (.str "buy"), some (.str "good"), none⟩
      = .error .typeError := rfl

/-- Claim C10: a syntactically valid, authenticated payload whose
`confidence` field is the string "high" makes the handler raise an uncaught
`ValueError` at `float(...)` instead of returning a structured 4xx
response. -/
theorem claim_C10_confidence_string_raises :
    webhook ⟨"secret123", "", "", "", false⟩ (fun _ => ("positive", mkRat 9 10))
      (fun _ => "") (fun _ => "") (fun _ => none) (fun _ => (none : Option Unit))
      ⟨some (.str "secret123"), some (.str "BTCUSDT"), none, some (.str "buy"),
       some (.str "good"), some (.str "high")⟩
      = .error .valueError := rfl

end FinGPT
